import Mathlib

/-!
# Verification of the AIOD-rest-api dataset conversion core

A shallow embedding of the repository's dataset conversion layer:

* `src/schemas.py` — the canonical (AIoD) pydantic schemas;
* `src/converters/dataset_converter.py` — `orm_to_aiod`, `aiod_to_orm` and
  `_retrieve_related_objects_by_ids`;
* the get-or-create `as_unique` helpers of `database/model/general.py` (not shipped in `src/`,
  modelled from the spec, §4.1);
* the register / replace operations of the service layer (not shipped in `src/`, modelled from
  the spec §6 and the tests `test_post_register_dataset.py`, `test_put_datasets.py`).

Python sets of strings (`Set[str]`) are embedded as `List String`; where a theorem needs
set-ness (no duplicates) it takes an explicit `Nodup` hypothesis, matching the guarantee
pydantic's `Set[str]` coercion provides.  Database stores are embedded as lists of rows; the
primary-key invariant (no two rows share an id) is likewise an explicit hypothesis.
`datetime` values are embedded as an abstract `Int` timestamp: the converter only copies them.
-/

/-- `datetime` values: the converter only copies them verbatim, so an abstract timestamp
suffices. -/
abbrev PyDateTime := Int

/-! ## ORM rows (`database/model/*`, reconstructed from their use in the converter)

The self-referential `has_parts` / `is_part` association of `OrmDataset` is embedded one level
deep: the store holds flat `OrmDatasetRow` rows (id and the `(name, node)` natural key), and a
converted `OrmDataset` references such rows.  The converter only ever reads `.id` of a related
row, so this unrolling is faithful for every operation embedded here. -/

/-- A dataset row as it sits in the `dataset` table: its id and its `(name, node)` natural
key.  Identifiers are strings, as in the converter's `ids: Set[str]` signature. -/
structure OrmDatasetRow where
  id : String
  name : String
  node : String
deriving Repr, DecidableEq

/-- `OrmPublication` (database/model/publication.py): identifier, title, url. -/
structure OrmPublication where
  id : String
  title : Option String
  url : Option String
deriving Repr, DecidableEq

/-- `OrmLicense` (database/model/general.py): unique by natural key `name`. -/
structure OrmLicense where
  id : Nat
  name : String
deriving Repr, DecidableEq

/-- `OrmKeyword` (database/model/general.py): unique by natural key `name`. -/
structure OrmKeyword where
  id : Nat
  name : String
deriving Repr, DecidableEq

/-- `OrmAlternateName` (database/model/dataset.py): unique by natural key `name`. -/
structure OrmAlternateName where
  id : Nat
  name : String
deriving Repr, DecidableEq

/-- `OrmMeasuredValue` (database/model/dataset.py): unique by the natural key
`(variable, technique)`. -/
structure OrmMeasuredValue where
  id : Nat
  «variable» : Option String
  technique : Option String
deriving Repr, DecidableEq

/-- The `(variable, technique)` natural key of a measured value. -/
def OrmMeasuredValue.key (mv : OrmMeasuredValue) : Option String × Option String :=
  (mv.«variable», mv.technique)

/-- `OrmDataDownload` (database/model/dataset.py): an owned distribution value object. -/
structure OrmDataDownload where
  content_url : String
  content_size_kb : Option Int
  description : Option String
  name : Option String
  encoding_format : Option String
deriving Repr, DecidableEq

/-! ## The relational store

One consistent snapshot of the tables the converter touches, threaded explicitly where the
Python code mutates the SQLAlchemy session. -/

/-- The database session's view of the tables used by the dataset converter. -/
structure DB where
  datasets : List OrmDatasetRow
  publications : List OrmPublication
  licenses : List OrmLicense
  keywords : List OrmKeyword
  alternate_names : List OrmAlternateName
  measured_values : List OrmMeasuredValue
deriving Repr, DecidableEq

/-! ## `_retrieve_related_objects_by_ids` (dataset_converter.py lines 133–144)

```python
def _retrieve_related_objects_by_ids(session, ids, cls):
    related_objects = []
    if len(ids) > 0:
        query = select(cls).where(cls.id.in_(ids))
        related_objects = session.scalars(query).all()
        if len(related_objects) != len(ids):
            ids_not_found = set(ids) - {c.id for c in related_objects}
            raise HTTPException(status_code=404,
                detail=f"Dataset parts ... not found in the database.")
    return related_objects
```

The raised `HTTPException` is embedded as a structure carrying the status code and the
computed list `ids_not_found`; its `detail` string is rendered from that list exactly as the
f-string does (note the hard-coded prefix `Dataset parts`, independent of `cls`).  The batch
`select` is embedded as a filter of the store by membership of the id in `ids`, and the
number of issued queries is recorded so that the short-circuit on empty input is visible. -/

/-- The `HTTPException` raised by `_retrieve_related_objects_by_ids`: status code and the
set of identifiers that were not found (the source of its `detail` string). -/
structure HTTPException where
  status_code : Nat
  ids_not_found : List String
deriving Repr, DecidableEq

/-- The `detail` f-string of the raised exception:
`f"Dataset parts not found ..."` rendered from `ids_not_found` — the prefix
`Dataset parts` is hard-coded, whatever the target class `cls` is. -/
def HTTPException.detail (e : HTTPException) : String :=
  "Dataset parts '" ++ String.intercalate ", " e.ids_not_found ++ "' not found in the database."

/-- Result of one call to `_retrieve_related_objects_by_ids`: how many batch `select`
queries were issued against the session, and the outcome (the related rows, or the raised
`HTTPException`). -/
structure RetrieveResult (α : Type) where
  queries : Nat
  result : Except HTTPException (List α)
deriving Repr

/-- `_retrieve_related_objects_by_ids(session, ids, cls)`: generic in the target class, which
is embedded as the row type `α` together with its id column `idOf`.  `session` is the store of
rows of that class. -/
def retrieve_related_objects_by_ids {α : Type} (idOf : α → String)
    (session : List α) (ids : List String) : RetrieveResult α :=
  if ids.length > 0 then
    let related_objects := session.filter (fun a => ids.contains (idOf a))
    if related_objects.length ≠ ids.length then
      let ids_not_found := ids.filter (fun i => !((related_objects.map idOf).contains i))
      ⟨1, Except.error ⟨404, ids_not_found⟩⟩
    else
      ⟨1, Except.ok related_objects⟩
  else
    ⟨0, Except.ok []⟩

/-! ## `as_unique` — the EntityResolver (spec §4.1)

`OrmLicense.as_unique`, `OrmKeyword.as_unique`, `OrmAlternateName.as_unique` and
`OrmMeasuredValue.as_unique` live in `database/model/general.py` / `database/model/dataset.py`,
which are not shipped under `src/`; only their call sites in `aiod_to_orm` are.  They are
modelled from the spec. -/

/-- Modelled from the spec: the get-or-create `as_unique` class method of the shared lookup
entities (`database/model/general.py`, not under `src/`): given a natural key, return the
existing row with that key if present, otherwise create a fresh row for it, add it to the
store and return it (§4.1).  Generic in the row type `β` and its natural-key column `keyOf`;
`mk` builds a fresh row from a fresh id and the key. -/
def asUnique {β κ : Type} [DecidableEq κ] (keyOf : β → κ) (mk : Nat → κ → β)
    (store : List β) (key : κ) : β × List β :=
  match store.find? (fun b => decide (keyOf b = key)) with
  | some b => (b, store)
  | none => (mk store.length key, store ++ [mk store.length key])

/-- `OrmLicense.as_unique(session=session, name=...)`. -/
def OrmLicense.as_unique (store : List OrmLicense) (name : String) :
    OrmLicense × List OrmLicense :=
  asUnique OrmLicense.name (fun i n => ⟨i, n⟩) store name

/-- `OrmKeyword.as_unique(session=session, name=...)`. -/
def OrmKeyword.as_unique (store : List OrmKeyword) (name : String) :
    OrmKeyword × List OrmKeyword :=
  asUnique OrmKeyword.name (fun i n => ⟨i, n⟩) store name

/-- `OrmAlternateName.as_unique(session=session, name=...)`. -/
def OrmAlternateName.as_unique (store : List OrmAlternateName) (name : String) :
    OrmAlternateName × List OrmAlternateName :=
  asUnique OrmAlternateName.name (fun i n => ⟨i, n⟩) store name

/-- `OrmMeasuredValue.as_unique(session=session, variable=..., technique=...)`: the natural
key is the pair `(variable, technique)`. -/
def OrmMeasuredValue.as_unique (store : List OrmMeasuredValue) (v t : Option String) :
    OrmMeasuredValue × List OrmMeasuredValue :=
  asUnique OrmMeasuredValue.key (fun i k => ⟨i, k.1, k.2⟩) store (v, t)

/-! ## The canonical AIoD schemas (`src/schemas.py`) -/

/-- `AIoDDistribution` (schemas.py lines 17–22). -/
structure AIoDDistribution where
  content_url : String
  content_size_kb : Option Int
  description : Option String
  name : Option String
  encoding_format : Option String
deriving Repr, DecidableEq

/-- `AIoDMeasurementValue` (schemas.py lines 25–27). -/
structure AIoDMeasurementValue where
  «variable» : Option String
  technique : Option String
deriving Repr, DecidableEq

/-- `AIoDPublication` (schemas.py lines 30–36). -/
structure AIoDPublication where
  id : Option String
  title : Option String
  url : Option String
deriving Repr, DecidableEq

/-- The dual shape of the `citations` field (schemas.py line 74):
`Set[str] | List[AIoDPublication]` — either a set of bare publication identifiers, or a list
of fully embedded publication records. -/
inductive Citations where
  | ids (s : List String)
  | embedded (ps : List AIoDPublication)
deriving Repr, DecidableEq

/-- `AIoDDataset` (schemas.py lines 39–81).  The schema declares the top-level `id` as
`int | None` while the relation identifier sets are `Set[str]`; identifiers are embedded
uniformly as strings (the converter compares and copies them without arithmetic). -/
structure AIoDDataset where
  id : Option String
  description : String
  name : String
  node : String
  node_specific_identifier : String
  same_as : String
  creator : Option String
  date_modified : Option PyDateTime
  date_published : Option PyDateTime
  funder : Option String
  is_accessible_for_free : Option Bool
  issn : Option String
  size : Option Int
  spatial_coverage : Option String
  temporal_coverage_from : Option PyDateTime
  temporal_coverage_to : Option PyDateTime
  version : Option String
  license : Option String
  has_parts : List String
  is_part : List String
  alternate_names : List String
  citations : Citations
  distributions : List AIoDDistribution
  keywords : List String
  measured_values : List AIoDMeasurementValue
deriving Repr, DecidableEq

/-! ## `OrmDataset` as built by the converter (dataset_converter.py lines 81–127) -/

/-- The `OrmDataset` object assembled by `aiod_to_orm`: scalar columns plus resolved
relations (rows of the store) and freshly built owned value objects. -/
structure OrmDataset where
  id : Option String
  description : String
  name : String
  node : String
  node_specific_identifier : String
  same_as : String
  creator : Option String
  date_modified : Option PyDateTime
  date_published : Option PyDateTime
  funder : Option String
  is_accessible_for_free : Option Bool
  issn : Option String
  size : Option Int
  spatial_coverage : Option String
  temporal_coverage_from : Option PyDateTime
  temporal_coverage_to : Option PyDateTime
  version : Option String
  license : Option OrmLicense
  has_parts : List OrmDatasetRow
  is_part : List OrmDatasetRow
  alternate_names : List OrmAlternateName
  citations : List OrmPublication
  distributions : List OrmDataDownload
  keywords : List OrmKeyword
  measured_values : List OrmMeasuredValue
deriving Repr, DecidableEq

/-! ## `orm_to_aiod` (dataset_converter.py lines 21–64): pure flattening -/

/-- `orm_to_aiod(orm)`: the database variant towards the AIoD schema — pure flattening,
no session involved.  Related entities become their identifiers, shared lookup entities
their natural keys, owned value objects literal embedded records. -/
def orm_to_aiod (orm : OrmDataset) : AIoDDataset :=
  { id := orm.id
    description := orm.description
    name := orm.name
    node := orm.node
    node_specific_identifier := orm.node_specific_identifier
    same_as := orm.same_as
    creator := orm.creator
    date_modified := orm.date_modified
    date_published := orm.date_published
    funder := orm.funder
    is_accessible_for_free := orm.is_accessible_for_free
    issn := orm.issn
    size := orm.size
    spatial_coverage := orm.spatial_coverage
    temporal_coverage_from := orm.temporal_coverage_from
    temporal_coverage_to := orm.temporal_coverage_to
    version := orm.version
    license := orm.license.map OrmLicense.name
    has_parts := orm.has_parts.map OrmDatasetRow.id
    is_part := orm.is_part.map OrmDatasetRow.id
    alternate_names := orm.alternate_names.map OrmAlternateName.name
    citations := Citations.ids (orm.citations.map OrmPublication.id)
    distributions := orm.distributions.map (fun d =>
      { content_url := d.content_url
        content_size_kb := d.content_size_kb
        description := d.description
        name := d.name
        encoding_format := d.encoding_format })
    keywords := orm.keywords.map OrmKeyword.name
    measured_values := orm.measured_values.map (fun mv =>
      { «variable» := mv.«variable», technique := mv.technique }) }

/-! ## `aiod_to_orm` (dataset_converter.py lines 67–127) -/

/-- Threads a store through a list of `as_unique` resolutions, in list order, exactly as the
Python list comprehensions over the shared session do. -/
def mapAsUnique {σ α β : Type} (f : σ → α → β × σ) : σ → List α → List β × σ
  | s, [] => ([], s)
  | s, x :: xs =>
    let p := f s x
    let q := mapAsUnique f p.2 xs
    (p.1 :: q.1, q.2)

/-- The license resolution of `aiod_to_orm`:
`OrmLicense.as_unique(session, name=aiod.license) if aiod.license is not None else None`. -/
def licenseStep (store : List OrmLicense) : Option String → Option OrmLicense × List OrmLicense
  | some n => (some (OrmLicense.as_unique store n).1, (OrmLicense.as_unique store n).2)
  | none => (none, store)

/-- The `OrmDataset(...)` constructor call of `aiod_to_orm` (dataset_converter.py lines
81–126) plus the trailing `orm.id = aiod.id`: scalar fields copied verbatim; license,
alternate names, keywords and measured values resolved through `as_unique` in the
constructor's evaluation order, threading the session state; one fresh `OrmDataDownload`
per input distribution; the already-resolved citations / has_parts / is_part lists linked
as given.  Returns the assembled row together with the session state after the `as_unique`
creations (datasets and publications tables are never written by the converter). -/
def buildOrm (db : DB) (aiod : AIoDDataset) (citations : List OrmPublication)
    (has_parts is_part : List OrmDatasetRow) : OrmDataset × DB :=
  let lic := licenseStep db.licenses aiod.license
  let an := mapAsUnique OrmAlternateName.as_unique db.alternate_names aiod.alternate_names
  let kw := mapAsUnique OrmKeyword.as_unique db.keywords aiod.keywords
  let mv := mapAsUnique
    (fun st (m : AIoDMeasurementValue) => OrmMeasuredValue.as_unique st m.«variable» m.technique)
    db.measured_values aiod.measured_values
  ({ id := aiod.id
     description := aiod.description
     name := aiod.name
     node := aiod.node
     node_specific_identifier := aiod.node_specific_identifier
     same_as := aiod.same_as
     creator := aiod.creator
     date_modified := aiod.date_modified
     date_published := aiod.date_published
     funder := aiod.funder
     is_accessible_for_free := aiod.is_accessible_for_free
     issn := aiod.issn
     size := aiod.size
     spatial_coverage := aiod.spatial_coverage
     temporal_coverage_from := aiod.temporal_coverage_from
     temporal_coverage_to := aiod.temporal_coverage_to
     version := aiod.version
     license := lic.1
     has_parts := has_parts
     is_part := is_part
     alternate_names := an.1
     citations := citations
     distributions := aiod.distributions.map (fun d =>
       { content_url := d.content_url
         content_size_kb := d.content_size_kb
         description := d.description
         name := d.name
         encoding_format := d.encoding_format })
     keywords := kw.1
     measured_values := mv.1 },
   { db with
     licenses := lic.2
     alternate_names := an.2
     keywords := kw.2
     measured_values := mv.2 })

/-- `aiod_to_orm(session, aiod)`: the AIoD schema towards the database variant.

Field by field, following the source: `citations` supplied as an embedded-record list is the
unhandled `TODO(issue 7)` branch and becomes `[]` without touching the store; `citations`
supplied as identifiers, then `has_parts`, then `is_part` are resolved through
`_retrieve_related_objects_by_ids` (the first raised `HTTPException` aborts, in that order);
the shared lookup entities are resolved through `as_unique` in the constructor's evaluation
order (license, alternate names, keywords, measured values), threading the session; the
distributions become fresh `OrmDataDownload` rows; finally `orm.id = aiod.id`.  The returned
store reflects every `as_unique` creation; the datasets and publications tables are never
written by the converter. -/
def aiod_to_orm (db : DB) (aiod : AIoDDataset) : Except HTTPException (OrmDataset × DB) :=
  match (match aiod.citations with
         | Citations.embedded _ => Except.ok []
         | Citations.ids s =>
             (retrieve_related_objects_by_ids OrmPublication.id db.publications s).result) with
  | Except.error e => Except.error e
  | Except.ok citations =>
  match (retrieve_related_objects_by_ids OrmDatasetRow.id db.datasets aiod.has_parts).result with
  | Except.error e => Except.error e
  | Except.ok has_parts =>
  match (retrieve_related_objects_by_ids OrmDatasetRow.id db.datasets aiod.is_part).result with
  | Except.error e => Except.error e
  | Except.ok is_part => Except.ok (buildOrm db aiod citations has_parts is_part)

/-! ## Canonical validation (spec §6; schemas.py `Field` constraints)

The validation engine is the pydantic library, which is not part of the repository; the
constraints themselves are the `Field(max_length=..., min_length=...)` declarations of
schemas.py, and the batched structured error list is the behaviour pinned down by
`test_put_datasets.test_partial_update` / `test_too_long_name`. -/

/-- One entry of the structured validation error list: field path and message. -/
structure ValidationError where
  loc : List String
  msg : String
deriving Repr, DecidableEq

/-- The message of a `max_length` violation, rendered with the limit
(test_put_datasets.test_too_long_name). -/
def maxLengthMsg (limit : Nat) : String :=
  "ensure this value has at most " ++ toString limit ++ " characters"

/-- The message of a `min_length` violation, rendered with the limit. -/
def minLengthMsg (limit : Nat) : String :=
  "ensure this value has at least " ++ toString limit ++ " characters"

/-- `max_length` check of one required string field. -/
def maxLengthCheck (loc : List String) (limit : Nat) (s : String) : List ValidationError :=
  if s.length > limit then [⟨loc, maxLengthMsg limit⟩] else []

/-- `max_length` check of one optional string field (`None` passes). -/
def maxLengthCheckOpt (loc : List String) (limit : Nat) :
    Option String → List ValidationError
  | some s => maxLengthCheck loc limit s
  | none => []

/-- `min_length` check of one optional string field (`None` passes). -/
def minLengthCheckOpt (loc : List String) (limit : Nat) :
    Option String → List ValidationError
  | some s => if s.length < limit then [⟨loc, minLengthMsg limit⟩] else []
  | none => []

/-- Modelled from the spec: pydantic validation of `AIoDDataset` (the validation engine is
the pydantic library, not repository code).  The constraints are exactly the `Field`
declarations of schemas.py lines 44–81, checked in field-declaration order: description
≤ 5000, name ≤ 150, node ≤ 30, node_specific_identifier ≤ 250, same_as ≤ 150, creator
≤ 150, issn exactly 8 when present (max_length=8 together with min_length=8),
spatial_coverage ≤ 500, version ≤ 150, license ≤ 150, and per distribution content_url
≤ 150 / description ≤ 5000 / name ≤ 150 / encoding_format ≤ 150.  All violations are
collected into one structured list; validation never stops at the first. -/
def validateAIoDDataset (d : AIoDDataset) : List ValidationError :=
  maxLengthCheck ["description"] 5000 d.description ++
  maxLengthCheck ["name"] 150 d.name ++
  maxLengthCheck ["node"] 30 d.node ++
  maxLengthCheck ["node_specific_identifier"] 250 d.node_specific_identifier ++
  maxLengthCheck ["same_as"] 150 d.same_as ++
  maxLengthCheckOpt ["creator"] 150 d.creator ++
  maxLengthCheckOpt ["issn"] 8 d.issn ++
  minLengthCheckOpt ["issn"] 8 d.issn ++
  maxLengthCheckOpt ["spatial_coverage"] 500 d.spatial_coverage ++
  maxLengthCheckOpt ["version"] 150 d.version ++
  maxLengthCheckOpt ["license"] 150 d.license ++
  (d.distributions.enum.map (fun p =>
    maxLengthCheck ["distributions", toString p.1, "content_url"] 150 p.2.content_url ++
    maxLengthCheckOpt ["distributions", toString p.1, "description"] 5000 p.2.description ++
    maxLengthCheckOpt ["distributions", toString p.1, "name"] 150 p.2.name ++
    maxLengthCheckOpt ["distributions", toString p.1, "encoding_format"] 150
      p.2.encoding_format)).flatten

/-! ## The service layer operations (spec §6; routers not shipped under src/) -/

/-- The error surface of the service layer: 422 with the structured validation list, 404
NotFound with a detail string, 409 Conflict with a detail string. -/
inductive APIError where
  | validation (errs : List ValidationError)
  | notFound (detail : String)
  | conflict (detail : String)
deriving Repr, DecidableEq

/-- Modelled from the spec: the replace-by-identifier (PUT) operation (§6; its router is not
shipped under `src/`; behaviour pinned by test_put_datasets.py).  Pydantic validation runs
first, before any conversion, answering 422 with the complete violation list; then the
target row is looked up (404 `"Dataset '<id>' not found in the database."`,
test_put_datasets.test_non_existent); only then is the canonical record converted with
`aiod_to_orm` (whose raised `HTTPException` propagates as 404). -/
def put_dataset (db : DB) (identifier : String) (d : AIoDDataset) :
    Except APIError (OrmDataset × DB) :=
  if validateAIoDDataset d ≠ [] then
    Except.error (APIError.validation (validateAIoDDataset d))
  else if (db.datasets.find? (fun r => r.id == identifier)).isNone then
    Except.error (APIError.notFound
      ("Dataset '" ++ identifier ++ "' not found in the database."))
  else
    match aiod_to_orm db { d with id := some identifier } with
    | Except.error e => Except.error (APIError.notFound e.detail)
    | Except.ok (orm, db2) => Except.ok (orm, db2)

/-- The 409 conflict of the register endpoint: carries the identifier of the pre-existing
row with the same `(name, node)` natural key, from which the detail message is rendered
(test_post_register_dataset.test_duplicated_dataset). -/
structure ConflictException where
  existing_id : String
deriving Repr, DecidableEq

/-- The conflict detail string of the register endpoint
(test_post_register_dataset.test_duplicated_dataset). -/
def ConflictException.detail (e : ConflictException) : String :=
  "There already exists a dataset with the same platform and name, with id="
    ++ e.existing_id ++ "."

/-- Modelled from the spec: the register (POST) operation (§6; its router is not shipped
under `src/`; behaviour pinned by test_post_register_dataset.py).  A canonical record
without identifier is inserted with a fresh identifier unless a row with the same
`(name, node)` natural key already exists, in which case a 409 Conflict referencing the
existing row's id is raised and nothing is inserted.  Returns the outcome together with the
resulting datasets table. -/
def register_dataset (db : DB) (d : AIoDDataset) :
    Except ConflictException String × List OrmDatasetRow :=
  match db.datasets.find? (fun r => r.name == d.name && r.node == d.node) with
  | some r => (Except.error ⟨r.id⟩, db.datasets)
  | none =>
    (Except.ok (toString (db.datasets.length + 1)),
      db.datasets ++ [⟨toString (db.datasets.length + 1), d.name, d.node⟩])

/-! ## `PublicationConnector.node_name` (publication_connector.py lines 11–14) -/

/-- How `PublicationConnector.node_name` determines the node a connector implementation
serves.  Two candidate mechanisms: a static, explicit registry keyed by the closed node
identifier, or runtime inspection of the implementing class.  The source reads
`return NodeName.from_class(self.__class__)`: the node is computed from the
implementation's class at runtime. -/
inductive NodeResolutionMechanism where
  | staticRegistry
  | classInspection
deriving Repr, DecidableEq

/-- The mechanism used by `PublicationConnector.node_name` in the source:
`NodeName.from_class(self.__class__)` — runtime class inspection, not a static registry
entry. -/
def node_name_mechanism : NodeResolutionMechanism :=
  NodeResolutionMechanism.classInspection

/-! ## Pydantic `Set[str]` coercion (schemas.py lines 66–80) -/

/-- Modelled from the spec: pydantic's coercion of an incoming JSON array into the
`Set[str]` fields of `AIoDDataset` — `has_parts`, `is_part`, `alternate_names`,
`keywords` (schemas.py lines 66–80): the elements are collected into a set, collapsing
duplicates, before the converter ever sees the record. -/
def parseSetField (raw : List String) : List String := raw.dedup

/-- Field-by-field agreement of a round-tripped dataset with the original on the identity,
every scalar field, and every relation rendered back identically (`citations` is compared
separately, up to set membership of the resolved identifiers). -/
def roundTripMatches (d2 d : AIoDDataset) : Prop :=
  d2.id = d.id ∧ d2.description = d.description ∧ d2.name = d.name ∧ d2.node = d.node ∧
  d2.node_specific_identifier = d.node_specific_identifier ∧ d2.same_as = d.same_as ∧
  d2.creator = d.creator ∧ d2.date_modified = d.date_modified ∧
  d2.date_published = d.date_published ∧ d2.funder = d.funder ∧
  d2.is_accessible_for_free = d.is_accessible_for_free ∧ d2.issn = d.issn ∧
  d2.size = d.size ∧ d2.spatial_coverage = d.spatial_coverage ∧
  d2.temporal_coverage_from = d.temporal_coverage_from ∧
  d2.temporal_coverage_to = d.temporal_coverage_to ∧ d2.version = d.version ∧
  d2.license = d.license ∧ d2.has_parts = d.has_parts ∧ d2.is_part = d.is_part ∧
  d2.alternate_names = d.alternate_names ∧ d2.keywords = d.keywords ∧
  d2.distributions = d.distributions ∧ d2.measured_values = d.measured_values

/-! # Theorems -/

/-! ### Helper lemmas about the batch lookup -/

/-- Mapping a column over a store filtered on that column commutes to filtering the mapped
column. -/
theorem map_filter_comp {α : Type} (idOf : α → String) (p : String → Bool)
    (session : List α) :
    (session.filter (fun a => p (idOf a))).map idOf = (session.map idOf).filter p := by
  induction session with
  | nil => rfl
  | cons a rest ih =>
    simp only [List.filter_cons, List.map_cons]
    cases h : p (idOf a) <;> simp [h, ih]

/-- Mapping the id column over the filtered store commutes to filtering the id column. -/
theorem map_filter_contains {α : Type} (idOf : α → String) (session : List α)
    (ids : List String) :
    (session.filter (fun a => ids.contains (idOf a))).map idOf
      = (session.map idOf).filter (fun i => ids.contains i) :=
  map_filter_comp idOf (fun i => ids.contains i) session

/-- Under the primary-key invariant and set-ness of `ids`, a missing identifier forces the
batch query to return strictly fewer rows than identifiers were asked for. -/
theorem filter_length_lt_of_missing {α : Type} (idOf : α → String) (session : List α)
    (ids : List String) (hids : ids.Nodup) (hsess : (session.map idOf).Nodup)
    (hmiss : ∃ i, i ∈ ids ∧ i ∉ session.map idOf) :
    (session.filter (fun a => ids.contains (idOf a))).length < ids.length := by
  obtain ⟨i0, hi0mem, hi0notin⟩ := hmiss
  have hmap := map_filter_contains idOf session ids
  have hlen : (session.filter (fun a => ids.contains (idOf a))).length
      = ((session.map idOf).filter (fun i => ids.contains i)).length := by
    rw [← hmap, List.length_map]
  rw [hlen]
  set l := (session.map idOf).filter (fun i => ids.contains i) with hl
  have hlnodup : l.Nodup := hsess.filter _
  have hlsub : l.toFinset ⊆ ids.toFinset := by
    intro x hx
    rw [List.mem_toFinset] at hx ⊢
    have hmem := List.mem_filter.mp hx
    simpa using hmem.2
  have hssub : l.toFinset ⊂ ids.toFinset := by
    refine Finset.ssubset_iff_of_subset hlsub |>.mpr ⟨i0, ?_, ?_⟩
    · rwa [List.mem_toFinset]
    · rw [List.mem_toFinset]
      intro hmem
      exact hi0notin (List.mem_of_mem_filter hmem)
  have hcard := Finset.card_lt_card hssub
  rwa [List.toFinset_card_of_nodup hlnodup, List.toFinset_card_of_nodup hids] at hcard

/-- Characterization of the `ids_not_found` list computed on a failed lookup: it holds
exactly the requested identifiers absent from the store. -/
theorem mem_ids_not_found_iff {α : Type} (idOf : α → String) (session : List α)
    (ids : List String) (i : String) :
    (i ∈ ids.filter
        (fun i => !((session.filter (fun a => ids.contains (idOf a))).map idOf).contains i))
      ↔ i ∈ ids ∧ i ∉ session.map idOf := by
  rw [List.mem_filter, map_filter_contains]
  constructor
  · rintro ⟨h1, h2⟩
    rw [Bool.not_eq_true'] at h2
    refine ⟨h1, fun hmem => ?_⟩
    have hin : i ∈ (session.map idOf).filter (fun j => ids.contains j) :=
      List.mem_filter.mpr ⟨hmem, by simpa using h1⟩
    have hc : ((session.map idOf).filter (fun j => ids.contains j)).contains i = true := by
      simpa using hin
    rw [h2] at hc
    exact Bool.false_ne_true hc
  · rintro ⟨h1, h2⟩
    refine ⟨h1, ?_⟩
    rw [Bool.not_eq_true']
    have hout : i ∉ (session.map idOf).filter (fun j => ids.contains j) :=
      fun hmem => h2 (List.mem_of_mem_filter hmem)
    simpa using hout

/-- On any non-empty input with a missing identifier (store satisfying the primary-key
invariant, `ids` a set), the lookup raises, with `ids_not_found` exactly the missing ids. -/
theorem retrieve_error_characterization {α : Type} (idOf : α → String) (session : List α)
    (ids : List String) (hne : ids ≠ []) (hids : ids.Nodup)
    (hsess : (session.map idOf).Nodup) (hmiss : ∃ i, i ∈ ids ∧ i ∉ session.map idOf) :
    (retrieve_related_objects_by_ids idOf session ids).result
      = Except.error ⟨404, ids.filter
          (fun i => !((session.filter (fun a => ids.contains (idOf a))).map idOf).contains i)⟩ := by
  have hpos : ids.length > 0 := List.length_pos.mpr hne
  have hlt := filter_length_lt_of_missing idOf session ids hids hsess hmiss
  rw [retrieve_related_objects_by_ids, if_pos hpos, if_pos (Nat.ne_of_lt hlt)]

/-! ## Claim C6: empty-set short circuit -/

/-- C6: for the empty identifier set, `_retrieve_related_objects_by_ids` performs no store
lookup at all (zero batch queries are issued) and returns an empty collection, for every
target entity kind (any row type, any store). -/
theorem retrieve_empty_set_short_circuit {α : Type} (idOf : α → String) (session : List α) :
    retrieve_related_objects_by_ids idOf session [] = ⟨0, Except.ok []⟩ := rfl

/-! ## Claim C1: complete missing-id reporting, all-or-nothing -/

/-- C1: for every non-empty identifier set of which at least one identifier is absent from
the store (the store satisfying the primary-key invariant), the batch resolution fails with a
404 NotFound whose `ids_not_found` — the list rendered verbatim into the `detail` message —
enumerates exactly the missing identifiers, all of them, and no collection of entities is
returned. -/
theorem retrieve_reports_all_missing {α : Type} (idOf : α → String) (session : List α)
    (ids : List String) (hne : ids ≠ []) (hids : ids.Nodup)
    (hsess : (session.map idOf).Nodup)
    (hmiss : ∃ i ∈ ids, i ∉ session.map idOf) :
    ∃ e : HTTPException,
      (retrieve_related_objects_by_ids idOf session ids).result = Except.error e ∧
      e.status_code = 404 ∧
      (∀ i, i ∈ e.ids_not_found ↔ i ∈ ids ∧ i ∉ session.map idOf) := by
  refine ⟨_, retrieve_error_characterization idOf session ids hne hids hsess hmiss, rfl, ?_⟩
  intro i
  exact mem_ids_not_found_iff idOf session ids i

/-- Witness for C1 at the spec's own example: with only identifier "a" present, resolving
`{"a", "b"}` against the Publication kind fails listing exactly `{"b"}`. -/
theorem retrieve_reports_all_missing_witness :
    ((["a", "b"] : List String) ≠ [] ∧ (["a", "b"] : List String).Nodup ∧
      (([⟨"a", none, none⟩] : List OrmPublication).map OrmPublication.id).Nodup ∧
      (∃ i ∈ (["a", "b"] : List String),
        i ∉ ([⟨"a", none, none⟩] : List OrmPublication).map OrmPublication.id)) ∧
    ∃ e : HTTPException,
      (retrieve_related_objects_by_ids OrmPublication.id
          ([⟨"a", none, none⟩] : List OrmPublication) ["a", "b"]).result = Except.error e ∧
      e.status_code = 404 ∧
      (∀ i, i ∈ e.ids_not_found ↔
        i ∈ (["a", "b"] : List String) ∧
          i ∉ ([⟨"a", none, none⟩] : List OrmPublication).map OrmPublication.id) :=
  ⟨⟨by decide, by decide, by decide, by decide⟩,
    retrieve_reports_all_missing OrmPublication.id [⟨"a", none, none⟩] ["a", "b"]
      (by decide) (by decide) (by decide) (by decide)⟩

/-! ## Claim C4: the NotFound message does NOT name the target entity kind -/

/-- C4 counterexample: a failed `citations` resolution against the Publication kind, at the
concrete input `{"b"}` on an empty publication store, renders its message with the hard-coded
prefix `Dataset parts` — it is not `"Publication 'b' not found in the database."` as the
claimed `<EntityKind>` format requires. -/
theorem retrieve_message_kind_counterexample :
    ∃ e : HTTPException,
      (retrieve_related_objects_by_ids OrmPublication.id
          ([] : List OrmPublication) ["b"]).result = Except.error e ∧
      e.detail = "Dataset parts 'b' not found in the database." ∧
      e.detail ≠ "Publication 'b' not found in the database." :=
  ⟨⟨404, ["b"]⟩, rfl, by decide, by decide⟩

/-- C4 (amended): whenever the batch resolution fails, the raised condition has status 404
and its message is rendered as `"Dataset parts '<id1>, <id2>' not found in the database."` —
the prefix `Dataset parts` is fixed whatever the target entity kind is (in particular a failed
citations resolution against the Publication kind also reports `Dataset parts`) — and every
identifier enumerated in the message was requested and is missing from the store. -/
theorem retrieve_message_fixed_prefix {α : Type} (idOf : α → String) (session : List α)
    (ids : List String) (e : HTTPException)
    (h : (retrieve_related_objects_by_ids idOf session ids).result = Except.error e) :
    e.status_code = 404 ∧
    e.detail = "Dataset parts '" ++ String.intercalate ", " e.ids_not_found
        ++ "' not found in the database." ∧
    ∀ i ∈ e.ids_not_found, i ∈ ids ∧ i ∉ session.map idOf := by
  simp only [retrieve_related_objects_by_ids] at h
  split at h
  · split at h
    · simp only [Except.error.injEq] at h
      subst h
      refine ⟨rfl, rfl, fun i hi => ?_⟩
      exact (mem_ids_not_found_iff idOf session ids i).mp hi
    · exact absurd h (by simp)
  · exact absurd h (by simp)

/-- Witness for C4's amended statement: one publication "x" present, resolving
`{"x", "y"}`. -/
theorem retrieve_message_fixed_prefix_witness :
    ((retrieve_related_objects_by_ids OrmPublication.id
        ([⟨"x", none, none⟩] : List OrmPublication) ["x", "y"]).result
      = Except.error ⟨404, ["y"]⟩) ∧
    ((404 : Nat) = 404 ∧
      HTTPException.detail ⟨404, ["y"]⟩
        = "Dataset parts '" ++ String.intercalate ", " ["y"] ++ "' not found in the database." ∧
      ∀ i ∈ (["y"] : List String), i ∈ (["x", "y"] : List String) ∧
        i ∉ ([⟨"x", none, none⟩] : List OrmPublication).map OrmPublication.id) :=
  ⟨rfl, retrieve_message_fixed_prefix OrmPublication.id [⟨"x", none, none⟩] ["x", "y"]
    ⟨404, ["y"]⟩ rfl⟩

/-! ### Resolver lemmas -/

/-- The row returned by `asUnique` carries the requested natural key. -/
theorem asUnique_key {β κ : Type} [DecidableEq κ] (keyOf : β → κ) (mk : Nat → κ → β)
    (hmk : ∀ i k, keyOf (mk i k) = k) (store : List β) (key : κ) :
    keyOf (asUnique keyOf mk store key).1 = key := by
  rw [asUnique]
  cases hfind : store.find? (fun b => decide (keyOf b = key)) with
  | some b =>
    have hp := List.find?_some hfind
    exact of_decide_eq_true hp
  | none => exact hmk store.length key

/-- The row returned by `asUnique` is in the returned store. -/
theorem asUnique_mem {β κ : Type} [DecidableEq κ] (keyOf : β → κ) (mk : Nat → κ → β)
    (store : List β) (key : κ) :
    (asUnique keyOf mk store key).1 ∈ (asUnique keyOf mk store key).2 := by
  rw [asUnique]
  cases hfind : store.find? (fun b => decide (keyOf b = key)) with
  | some b => exact List.mem_of_find?_eq_some hfind
  | none => exact List.mem_append_right store (List.mem_singleton.mpr rfl)

/-- In a store whose natural keys are pairwise distinct, filtering on the key of one of its
rows yields exactly that row. -/
theorem filter_key_eq_singleton {β κ : Type} [DecidableEq κ] (keyOf : β → κ)
    (store : List β) (b : β) (key : κ) (hinv : (store.map keyOf).Nodup)
    (hb : b ∈ store) (hkey : keyOf b = key) :
    store.filter (fun x => decide (keyOf x = key)) = [b] := by
  induction store with
  | nil => exact absurd hb (List.not_mem_nil b)
  | cons a rest ih =>
    rw [List.map_cons, List.nodup_cons] at hinv
    rcases List.mem_cons.mp hb with rfl | hbrest
    · rw [List.filter_cons_of_pos (by simpa using hkey)]
      congr 1
      rw [List.filter_eq_nil_iff]
      intro x hx hpx
      have hxkey : keyOf x = key := of_decide_eq_true hpx
      exact hinv.1 (by rw [hkey, ← hxkey]; exact List.mem_map_of_mem keyOf hx)
    · have hane : ¬ (keyOf a = key) := by
        intro hak
        have : keyOf b ∈ rest.map keyOf := List.mem_map_of_mem keyOf hbrest
        rw [hkey, ← hak] at this
        exact hinv.1 this
      rw [List.filter_cons_of_neg (by simpa using hane)]
      exact ih hinv.2 hbrest

/-- The key-uniqueness invariant of a shared-lookup table is preserved by `asUnique`. -/
theorem asUnique_preserves_inv {β κ : Type} [DecidableEq κ] (keyOf : β → κ)
    (mk : Nat → κ → β) (hmk : ∀ i k, keyOf (mk i k) = k) (store : List β) (key : κ)
    (hinv : (store.map keyOf).Nodup) :
    ((asUnique keyOf mk store key).2.map keyOf).Nodup := by
  rw [asUnique]
  cases hfind : store.find? (fun b => decide (keyOf b = key)) with
  | some b => exact hinv
  | none =>
    rw [List.find?_eq_none] at hfind
    rw [List.map_append, List.map_singleton, hmk]
    rw [List.nodup_append]
    refine ⟨hinv, List.nodup_singleton key, ?_⟩
    intro x hx hxk
    rw [List.mem_singleton] at hxk
    subst hxk
    obtain ⟨y, hy, hyk⟩ := List.mem_map.mp hx
    exact hfind y hy (decide_eq_true hyk)

/-! ## Claim C3: dedup idempotence of shared-lookup resolution -/

/-- C3: for every shared-lookup natural key (license name, alternate name, keyword name, or
measurement `(variable, technique)` pair — all four `as_unique` wrappers above are instances
of `asUnique`), resolving the key leaves the store with exactly one row carrying it, keeps
the key-uniqueness invariant, and any later resolution of the same key — immediately, or
after other conversions have grown the store around that row — returns the identical row and
creates nothing: converting two datasets that both list keyword "nlp" makes both reference
the one `OrmKeyword` row. -/
theorem asUnique_dedup_idempotent {β κ : Type} [DecidableEq κ] (keyOf : β → κ)
    (mk : Nat → κ → β) (hmk : ∀ i k, keyOf (mk i k) = k) (store : List β) (key : κ)
    (hinv : (store.map keyOf).Nodup) :
    ((asUnique keyOf mk store key).2.map keyOf).Nodup ∧
    (asUnique keyOf mk store key).2.filter (fun b => decide (keyOf b = key))
      = [(asUnique keyOf mk store key).1] ∧
    ∀ s2 : List β, (asUnique keyOf mk store key).1 ∈ s2 → (s2.map keyOf).Nodup →
      asUnique keyOf mk s2 key = ((asUnique keyOf mk store key).1, s2) := by
  refine ⟨asUnique_preserves_inv keyOf mk hmk store key hinv, ?_, ?_⟩
  · exact filter_key_eq_singleton keyOf _ _ key
      (asUnique_preserves_inv keyOf mk hmk store key hinv)
      (asUnique_mem keyOf mk store key) (asUnique_key keyOf mk hmk store key)
  · intro s2 hmem hinv2
    have hk1key : keyOf (asUnique keyOf mk store key).1 = key :=
      asUnique_key keyOf mk hmk store key
    rw [asUnique]
    cases hfind : s2.find? (fun b => decide (keyOf b = key)) with
    | some b =>
      have hp := List.find?_some hfind
      have hbmem := List.mem_of_find?_eq_some hfind
      have hbkey : keyOf b = key := of_decide_eq_true hp
      have hbeq : b = (asUnique keyOf mk store key).1 :=
        List.inj_on_of_nodup_map hinv2 hbmem hmem (by rw [hbkey, hk1key])
      rw [hbeq]
    | none =>
      rw [List.find?_eq_none] at hfind
      exact absurd hk1key (by simpa using hfind _ hmem)

/-- Witness for C3: resolving keyword "nlp" on the empty keyword table; all hypotheses
discharged concretely. -/
theorem asUnique_dedup_idempotent_witness :
    ((∀ i k, (OrmKeyword.mk i k).name = k) ∧
      ((([] : List OrmKeyword).map OrmKeyword.name).Nodup)) ∧
    (((asUnique OrmKeyword.name OrmKeyword.mk [] "nlp").2.map OrmKeyword.name).Nodup ∧
      (asUnique OrmKeyword.name OrmKeyword.mk [] "nlp").2.filter
          (fun b => decide (b.name = "nlp"))
        = [(asUnique OrmKeyword.name OrmKeyword.mk [] "nlp").1] ∧
      ∀ s2 : List OrmKeyword, (asUnique OrmKeyword.name OrmKeyword.mk [] "nlp").1 ∈ s2 →
        (s2.map OrmKeyword.name).Nodup →
        asUnique OrmKeyword.name OrmKeyword.mk s2 "nlp"
          = ((asUnique OrmKeyword.name OrmKeyword.mk [] "nlp").1, s2)) :=
  ⟨⟨fun _ _ => rfl, List.nodup_nil⟩,
    asUnique_dedup_idempotent OrmKeyword.name OrmKeyword.mk (fun _ _ => rfl) [] "nlp"
      List.nodup_nil⟩


/-! ### Success characterization of the batch lookup -/

/-- On the empty identifier set the lookup issues no query and returns the empty
collection (the `if len(ids) > 0` guard). -/
theorem retrieve_nil {α : Type} (idOf : α → String) (session : List α) :
    retrieve_related_objects_by_ids idOf session [] = ⟨0, Except.ok []⟩ := rfl

/-- With `ids` a set, the store satisfying the primary-key invariant and every requested
identifier present, the batch lookup succeeds with exactly the store rows whose ids were
requested. -/
theorem retrieve_success {α : Type} (idOf : α → String) (session : List α)
    (ids : List String) (hids : ids.Nodup) (hsess : (session.map idOf).Nodup)
    (hsub : ∀ i ∈ ids, i ∈ session.map idOf) :
    (retrieve_related_objects_by_ids idOf session ids).result
      = Except.ok (session.filter (fun a => ids.contains (idOf a))) := by
  by_cases hne : ids = []
  · subst hne
    have hfil : session.filter (fun a => ([] : List String).contains (idOf a)) = [] :=
      List.filter_eq_nil_iff.mpr (by intro a _; simp)
    rw [hfil]
    rfl
  · have hpos : ids.length > 0 := List.length_pos.mpr hne
    have hlen : (session.filter (fun a => ids.contains (idOf a))).length = ids.length := by
      have h1 : (session.filter (fun a => ids.contains (idOf a))).length
          = ((session.map idOf).filter (fun i => ids.contains i)).length := by
        rw [← map_filter_contains idOf session ids, List.length_map]
      rw [h1]
      have hlnodup : ((session.map idOf).filter (fun i => ids.contains i)).Nodup :=
        hsess.filter _
      have hperm : List.Perm ((session.map idOf).filter (fun i => ids.contains i)) ids := by
        apply List.perm_of_nodup_nodup_toFinset_eq hlnodup hids
        ext x
        simp only [List.mem_toFinset, List.mem_filter]
        constructor
        · rintro ⟨_, hx2⟩
          simpa using hx2
        · intro hx
          exact ⟨hsub x hx, by simpa using hx⟩
      exact hperm.length_eq
    rw [retrieve_related_objects_by_ids, if_pos hpos, if_neg (fun hcon => hcon hlen)]

/-! ## Claim C5: embedded citation records are silently discarded -/

/-- C5: for every canonical dataset whose `citations` are supplied as a list of fully
embedded publication records, `aiod_to_orm` takes the unimplemented `TODO(issue 7)` branch:
whenever the conversion succeeds, the resulting internal record's citations collection is
empty and the publication table is untouched — no new Publication rows are materialized,
the embedded records are silently discarded. -/
theorem embedded_citations_discarded (db : DB) (d : AIoDDataset)
    (ps : List AIoDPublication) (orm : OrmDataset) (db2 : DB)
    (hcit : d.citations = Citations.embedded ps)
    (h : aiod_to_orm db d = Except.ok (orm, db2)) :
    orm.citations = [] ∧ db2.publications = db.publications := by
  simp only [aiod_to_orm, hcit] at h
  split at h
  · exact absurd h (by simp)
  · split at h
    · exact absurd h (by simp)
    · rw [Except.ok.injEq] at h
      exact ⟨(congrArg (fun p : OrmDataset × DB => p.1.citations) h).symm,
        (congrArg (fun p : OrmDataset × DB => p.2.publications) h).symm⟩

/-- Witness for C5: an empty store and a dataset carrying one embedded publication record;
the conversion succeeds, the citations collection is empty, the publication table
untouched. -/
theorem embedded_citations_discarded_witness :
    ∃ (orm : OrmDataset) (db2 : DB),
      aiod_to_orm ⟨[], [], [], [], [], []⟩
          ⟨none, "dsc", "dset1", "openml", "1", "url1", none, none, none, none, none, none,
            none, none, none, none, none, none, [], [], [],
            Citations.embedded [⟨none, some "paper", none⟩], [], [], []⟩
        = Except.ok (orm, db2) ∧
      (orm.citations = [] ∧ db2.publications = DB.publications ⟨[], [], [], [], [], []⟩) :=
  ⟨_, _, rfl,
    embedded_citations_discarded ⟨[], [], [], [], [], []⟩
      ⟨none, "dsc", "dset1", "openml", "1", "url1", none, none, none, none, none, none,
        none, none, none, none, none, none, [], [], [],
        Citations.embedded [⟨none, some "paper", none⟩], [], [], []⟩
      [⟨none, some "paper", none⟩] _ _ rfl rfl⟩

/-! ## Claim C2: canonical → internal → canonical round trip -/

/-- The rows returned by a threaded sequence of resolutions project back to the inputs,
whenever each single resolution does. -/
theorem mapAsUnique_map_proj {σ α β : Type} (f : σ → α → β × σ) (g : β → α)
    (hfg : ∀ s x, g (f s x).1 = x) (s : σ) (xs : List α) :
    (mapAsUnique f s xs).1.map g = xs := by
  induction xs generalizing s with
  | nil => rfl
  | cons x rest ih =>
    simp only [mapAsUnique, List.map_cons]
    rw [hfg, ih]

/-- The keyword row resolved by `as_unique` carries the requested name. -/
theorem OrmKeyword_as_unique_name (s : List OrmKeyword) (n : String) :
    (OrmKeyword.as_unique s n).1.name = n :=
  asUnique_key OrmKeyword.name (fun i n => ⟨i, n⟩) (fun _ _ => rfl) s n

/-- The alternate-name row resolved by `as_unique` carries the requested name. -/
theorem OrmAlternateName_as_unique_name (s : List OrmAlternateName) (n : String) :
    (OrmAlternateName.as_unique s n).1.name = n :=
  asUnique_key OrmAlternateName.name (fun i n => ⟨i, n⟩) (fun _ _ => rfl) s n

/-- The measured-value row resolved by `as_unique` carries the requested
`(variable, technique)` key. -/
theorem OrmMeasuredValue_as_unique_key (s : List OrmMeasuredValue) (v t : Option String) :
    (OrmMeasuredValue.as_unique s v t).1.key = (v, t) :=
  asUnique_key OrmMeasuredValue.key (fun i k => ⟨i, k.1, k.2⟩) (fun _ _ => rfl) s (v, t)

/-- Rendering the resolved measured-value row back to the canonical schema reproduces the
input measurement value. -/
theorem measured_value_round (s : List OrmMeasuredValue) (m : AIoDMeasurementValue) :
    (⟨(OrmMeasuredValue.as_unique s m.«variable» m.technique).1.«variable»,
      (OrmMeasuredValue.as_unique s m.«variable» m.technique).1.technique⟩
        : AIoDMeasurementValue) = m := by
  have h := OrmMeasuredValue_as_unique_key s m.«variable» m.technique
  rw [OrmMeasuredValue.key, Prod.mk.injEq] at h
  cases m
  rw [h.1, h.2]

/-- The resolved license renders back to the canonical license name (also when absent). -/
theorem licenseStep_name (store : List OrmLicense) (lic : Option String) :
    (licenseStep store lic).1.map OrmLicense.name = lic := by
  cases lic with
  | none => rfl
  | some n =>
    show some ((OrmLicense.as_unique store n).1.name) = some n
    exact congrArg some
      (asUnique_key OrmLicense.name (fun i n => ⟨i, n⟩) (fun _ _ => rfl) store n)

/-- Rebuilding the owned distribution value objects and flattening them back is the
identity. -/
theorem distributions_round (ds : List AIoDDistribution) :
    (ds.map (fun d =>
      ({ content_url := d.content_url
         content_size_kb := d.content_size_kb
         description := d.description
         name := d.name
         encoding_format := d.encoding_format } : OrmDataDownload))).map (fun o =>
      ({ content_url := o.content_url
         content_size_kb := o.content_size_kb
         description := o.description
         name := o.name
         encoding_format := o.encoding_format } : AIoDDistribution)) = ds := by
  induction ds with
  | nil => rfl
  | cons d rest ih => simp [ih]

/-- C2: for every canonical dataset with no self-referential relations (`has_parts` and
`is_part` both empty) whose citations are bare identifiers that all resolve (with the
`Set[str]` and primary-key invariants), the conversion `aiod_to_orm` succeeds and composing
it with `orm_to_aiod` reproduces the identity, every scalar field and every relation of the
input exactly — the citations identifier set up to set membership, as sets carry no
order. -/
theorem round_trip (db : DB) (d : AIoDDataset) (cs : List String)
    (hhp : d.has_parts = []) (hip : d.is_part = [])
    (hcit : d.citations = Citations.ids cs) (hcs : cs.Nodup)
    (hpubs : (db.publications.map OrmPublication.id).Nodup)
    (hfound : ∀ c ∈ cs, c ∈ db.publications.map OrmPublication.id) :
    ∃ (orm : OrmDataset) (db2 : DB),
      aiod_to_orm db d = Except.ok (orm, db2) ∧
      roundTripMatches (orm_to_aiod orm) d ∧
      ∃ cs2, (orm_to_aiod orm).citations = Citations.ids cs2 ∧ (∀ x, x ∈ cs2 ↔ x ∈ cs) := by
  have hcitres := retrieve_success OrmPublication.id db.publications cs hcs hpubs hfound
  refine ⟨(buildOrm db d (db.publications.filter (fun a => cs.contains a.id)) [] []).1,
    (buildOrm db d (db.publications.filter (fun a => cs.contains a.id)) [] []).2,
    ?_, ?_, ?_⟩
  · simp only [aiod_to_orm, hcit, hcitres, hhp, hip, retrieve_nil]
  · refine ⟨rfl, rfl, rfl, rfl, rfl, rfl, rfl, rfl, rfl, rfl, rfl, rfl, rfl, rfl, rfl, rfl,
      rfl, ?_, ?_, ?_, ?_, ?_, ?_, ?_⟩
    · exact licenseStep_name db.licenses d.license
    · exact hhp.symm
    · exact hip.symm
    · exact mapAsUnique_map_proj OrmAlternateName.as_unique OrmAlternateName.name
        OrmAlternateName_as_unique_name db.alternate_names d.alternate_names
    · exact mapAsUnique_map_proj OrmKeyword.as_unique OrmKeyword.name
        OrmKeyword_as_unique_name db.keywords d.keywords
    · exact distributions_round d.distributions
    · exact mapAsUnique_map_proj
        (fun st (m : AIoDMeasurementValue) =>
          OrmMeasuredValue.as_unique st m.«variable» m.technique)
        (fun mv => ⟨mv.«variable», mv.technique⟩)
        (fun s m => measured_value_round s m) db.measured_values d.measured_values
  · refine ⟨_, rfl, ?_⟩
    intro x
    show x ∈ (db.publications.filter
      (fun a => cs.contains (OrmPublication.id a))).map OrmPublication.id ↔ x ∈ cs
    rw [map_filter_contains]
    rw [List.mem_filter]
    constructor
    · rintro ⟨_, hx2⟩
      simpa using hx2
    · intro hx
      exact ⟨hfound x hx, by simpa using hx⟩

/-- Witness for C2: one publication "p1" in the store; a dataset with every scalar field
populated, empty self-referential relations, citations `{"p1"}`, a license, alternate
names, keywords, a distribution and a measured value. -/
theorem round_trip_witness :
    ((["p1"] : List String).Nodup ∧
      (([⟨"p1", some "t", none⟩] : List OrmPublication).map OrmPublication.id).Nodup ∧
      (∀ c ∈ (["p1"] : List String),
        c ∈ ([⟨"p1", some "t", none⟩] : List OrmPublication).map OrmPublication.id)) ∧
    ∃ (orm : OrmDataset) (db2 : DB),
      aiod_to_orm ⟨[], [⟨"p1", some "t", none⟩], [], [], [], []⟩
          ⟨some "7", "dsc", "dset1", "openml", "1", "url1", some "me", some 5, some 6,
            some "funder", some true, some "12345678", some 9, some "earth", some 1, some 2,
            some "v1", some "mit", [], [], ["alt"], Citations.ids ["p1"],
            [⟨"u", some 3, some "dd", some "dn", some "csv"⟩], ["ml", "ai"],
            [⟨some "v", some "t"⟩]⟩
        = Except.ok (orm, db2) ∧
      roundTripMatches (orm_to_aiod orm)
        ⟨some "7", "dsc", "dset1", "openml", "1", "url1", some "me", some 5, some 6,
          some "funder", some true, some "12345678", some 9, some "earth", some 1, some 2,
          some "v1", some "mit", [], [], ["alt"], Citations.ids ["p1"],
          [⟨"u", some 3, some "dd", some "dn", some "csv"⟩], ["ml", "ai"],
          [⟨some "v", some "t"⟩]⟩ ∧
      ∃ cs2, (orm_to_aiod orm).citations = Citations.ids cs2 ∧
        (∀ x, x ∈ cs2 ↔ x ∈ (["p1"] : List String)) :=
  ⟨⟨by decide, by decide, by decide⟩,
    round_trip ⟨[], [⟨"p1", some "t", none⟩], [], [], [], []⟩
      ⟨some "7", "dsc", "dset1", "openml", "1", "url1", some "me", some 5, some 6,
        some "funder", some true, some "12345678", some 9, some "earth", some 1, some 2,
        some "v1", some "mit", [], [], ["alt"], Citations.ids ["p1"],
        [⟨"u", some 3, some "dd", some "dn", some "csv"⟩], ["ml", "ai"],
        [⟨some "v", some "t"⟩]⟩
      ["p1"] rfl rfl rfl (by decide) (by decide) (by decide)⟩

/-! ## Claim C7: canonical field constraints, batched, before any conversion -/

/-- C7: canonical validation enforces name ≤ 150, description ≤ 5000, node ≤ 30,
node_specific_identifier ≤ 250, same_as ≤ 150 characters and issn exactly 8 when present;
every violated constraint contributes its own `{field-path, message}` entry to the one
structured list — all violations of one input reported together, never stopping at the
first — with the name violation carried at field path `["name"]` with the 150-character
limit in its message; and a record with any violation is rejected by the replace operation
before `aiod_to_orm` ever runs. -/
theorem validation_enforced (d : AIoDDataset) :
    (d.name.length > 150 →
      (⟨["name"], maxLengthMsg 150⟩ : ValidationError) ∈ validateAIoDDataset d) ∧
    (d.description.length > 5000 →
      (⟨["description"], maxLengthMsg 5000⟩ : ValidationError) ∈ validateAIoDDataset d) ∧
    (d.node.length > 30 →
      (⟨["node"], maxLengthMsg 30⟩ : ValidationError) ∈ validateAIoDDataset d) ∧
    (d.node_specific_identifier.length > 250 →
      (⟨["node_specific_identifier"], maxLengthMsg 250⟩ : ValidationError)
        ∈ validateAIoDDataset d) ∧
    (d.same_as.length > 150 →
      (⟨["same_as"], maxLengthMsg 150⟩ : ValidationError) ∈ validateAIoDDataset d) ∧
    (∀ s, d.issn = some s → s.length > 8 →
      (⟨["issn"], maxLengthMsg 8⟩ : ValidationError) ∈ validateAIoDDataset d) ∧
    (∀ s, d.issn = some s → s.length < 8 →
      (⟨["issn"], minLengthMsg 8⟩ : ValidationError) ∈ validateAIoDDataset d) ∧
    (∀ (db : DB) (identifier : String), validateAIoDDataset d ≠ [] →
      put_dataset db identifier d
        = Except.error (APIError.validation (validateAIoDDataset d))) := by
  refine ⟨?_, ?_, ?_, ?_, ?_, ?_, ?_, ?_⟩
  · intro h
    simp [validateAIoDDataset, maxLengthCheck, h]
  · intro h
    simp [validateAIoDDataset, maxLengthCheck, h]
  · intro h
    simp [validateAIoDDataset, maxLengthCheck, h]
  · intro h
    simp [validateAIoDDataset, maxLengthCheck, h]
  · intro h
    simp [validateAIoDDataset, maxLengthCheck, h]
  · intro s hs h
    simp [validateAIoDDataset, maxLengthCheck, maxLengthCheckOpt, hs, h]
  · intro s hs h
    simp [validateAIoDDataset, minLengthCheckOpt, hs, h]
  · intro db identifier hne
    rw [put_dataset, if_pos hne]

set_option maxRecDepth 4000 in
/-- Witness for C7, at the spec's example: a 200-character name is rejected with a
violation at field path `["name"]` referencing the 150-character limit, and a non-empty
violation list blocks the replace operation before conversion. -/
theorem validation_enforced_witness :
    ((String.mk (List.replicate 200 'a')).length > 150 ∧
      validateAIoDDataset
          ⟨none, "dsc", String.mk (List.replicate 200 'a'), "openml", "1", "url1", none,
            none, none, none, none, none, none, none, none, none, none, none, [], [], [],
            Citations.ids [], [], [], []⟩ ≠ []) ∧
    ((⟨["name"], maxLengthMsg 150⟩ : ValidationError) ∈
      validateAIoDDataset
        ⟨none, "dsc", String.mk (List.replicate 200 'a'), "openml", "1", "url1", none,
          none, none, none, none, none, none, none, none, none, none, none, [], [], [],
          Citations.ids [], [], [], []⟩) ∧
    put_dataset ⟨[], [], [], [], [], []⟩ "4"
        ⟨none, "dsc", String.mk (List.replicate 200 'a'), "openml", "1", "url1", none,
          none, none, none, none, none, none, none, none, none, none, none, [], [], [],
          Citations.ids [], [], [], []⟩
      = Except.error (APIError.validation (validateAIoDDataset
          ⟨none, "dsc", String.mk (List.replicate 200 'a'), "openml", "1", "url1", none,
            none, none, none, none, none, none, none, none, none, none, none, [], [], [],
            Citations.ids [], [], [], []⟩)) :=
  ⟨⟨by decide, by decide⟩,
    (validation_enforced _).1 (by decide),
    (validation_enforced
        ⟨none, "dsc", String.mk (List.replicate 200 'a'), "openml", "1", "url1", none,
          none, none, none, none, none, none, none, none, none, none, none, [], [], [],
          Citations.ids [], [], [], []⟩).2.2.2.2.2.2.2
      ⟨[], [], [], [], [], []⟩ "4" (by decide)⟩

/-! ## Claim C8: conflict on duplicate registration -/

/-- C8: registering a dataset whose `(name, node)` natural key already has a row in the
store fails with a Conflict carrying the identifier of the pre-existing conflicting row —
its detail message spelling that identifier out — and the datasets table is returned
unchanged: no new row is created. -/
theorem register_duplicate_conflict (db : DB) (d : AIoDDataset) (r : OrmDatasetRow)
    (hfind : db.datasets.find? (fun row => row.name == d.name && row.node == d.node)
      = some r) :
    (register_dataset db d).1 = Except.error ⟨r.id⟩ ∧
    ConflictException.detail ⟨r.id⟩
      = "There already exists a dataset with the same platform and name, with id="
          ++ r.id ++ "." ∧
    (register_dataset db d).2 = db.datasets := by
  rw [register_dataset, hfind]
  exact ⟨rfl, rfl, rfl⟩

/-- Witness for C8 at the spec's example: registering `(name="dset1", node="openml")` when
a row with that pair and id 1 exists fails with a Conflict referencing id 1, leaving the
table unchanged. -/
theorem register_duplicate_conflict_witness :
    (([⟨"1", "dset1", "openml"⟩] : List OrmDatasetRow).find?
        (fun row => row.name == "dset1" && row.node == "openml")
      = some ⟨"1", "dset1", "openml"⟩) ∧
    ((register_dataset ⟨[⟨"1", "dset1", "openml"⟩], [], [], [], [], []⟩
        ⟨none, "dsc", "dset1", "openml", "1", "url1", none, none, none, none, none, none,
          none, none, none, none, none, none, [], [], [], Citations.ids [], [], [], []⟩).1
      = Except.error ⟨"1"⟩ ∧
    ConflictException.detail ⟨"1"⟩
      = "There already exists a dataset with the same platform and name, with id="
          ++ "1" ++ "." ∧
    (register_dataset ⟨[⟨"1", "dset1", "openml"⟩], [], [], [], [], []⟩
        ⟨none, "dsc", "dset1", "openml", "1", "url1", none, none, none, none, none, none,
          none, none, none, none, none, none, [], [], [], Citations.ids [], [], [], []⟩).2
      = DB.datasets ⟨[⟨"1", "dset1", "openml"⟩], [], [], [], [], []⟩) :=
  ⟨by decide,
    register_duplicate_conflict ⟨[⟨"1", "dset1", "openml"⟩], [], [], [], [], []⟩
      ⟨none, "dsc", "dset1", "openml", "1", "url1", none, none, none, none, none, none,
        none, none, none, none, none, none, [], [], [], Citations.ids [], [], [], []⟩
      ⟨"1", "dset1", "openml"⟩ (by decide)⟩

/-! ## Claim C9: how a connector's node identity is determined -/

/-- C9 counterexample: `PublicationConnector.node_name` does not consult a static, explicit
registry keyed by the closed node identifier — the source computes the node by runtime
inspection of the implementing class (`NodeName.from_class(self.__class__)`,
publication_connector.py line 14). -/
theorem node_name_not_static_registry :
    node_name_mechanism ≠ NodeResolutionMechanism.staticRegistry := by decide

/-- C9 (amended): the node identifier a concrete publication source serves is derived at
runtime from the implementing class, via `NodeName.from_class(self.__class__)` — runtime
type inspection, with no static registry entry mapping the node identifier to the
implementation. -/
theorem node_name_by_class_inspection :
    node_name_mechanism = NodeResolutionMechanism.classInspection := rfl

/-! ## Claim C10: the public `Set[str]` fields collapse duplicates -/

/-- C10: at the public interface the `has_parts`, `is_part`, `alternate_names` and
`keywords` fields are sets: for every incoming list of strings, the `Set[str]` coercion
applied to each of these four fields (`parseSetField`) collapses duplicates to a single
element — the validated field never contains a duplicate and keeps exactly the distinct
elements supplied — so `aiod_to_orm` never receives, resolves or links a duplicated
identifier or name within one of these fields. -/
theorem set_fields_collapse_duplicates (raw : List String) :
    (parseSetField raw).Nodup ∧ ∀ x, x ∈ parseSetField raw ↔ x ∈ raw :=
  ⟨List.nodup_dedup raw, fun _ => List.mem_dedup⟩
